import Mathlib

/-!
Verification of the goa runtime core (application.go): request dispatch,
middleware composition, error-handler policies and process-exit behavior.

The Go code in application.go is translated shallowly:

  * handlers mutate a per-request Context; we thread the Context explicitly,
    so a Go handler func(*Context) error becomes Context → Context × Option GoaError;
  * the Context type itself (context.go), the Middleware type and NewMiddleware
    (middleware.go) and BadRequestError are part of the repository but not in
    the sources at hand; they are modelled from the spec, each with a
    doc comment saying so;
  * process exit (os.Exit via Fatal) is modelled as an explicit outcome value;
  * the outcome of net/http listening and of the JSON decoder are inputs of
    the model (fields of Request, argument of Run), since they come from the
    environment.
-/

/-- Modelled from the spec: errors carried by handlers. The source
distinguishes the client-caused case with a runtime type check
against BadRequestError (a type whose definition is not among the sources);
per the spec design note this is modelled as a tagged variant carrying an
explicit client-caused flag and a message. GoaError.badRequest stands for a
value of type BadRequestError, GoaError.internal for every other Go error,
and message for the Go Error() string. -/
inductive GoaError where
  | badRequest (msg : String)
  | internal (msg : String)
deriving DecidableEq, Repr

/-- The Go e.Error() message of a modelled error. -/
def GoaError.message : GoaError → String
  | .badRequest m => m
  | .internal m => m

/-- The Go type assertion e.(*BadRequestError) on a modelled error. -/
def GoaError.isBadRequest : GoaError → Bool
  | .badRequest _ => true
  | .internal _ => false

/-- The decoded request payload. Go decodes into interface{}; the value is
opaque to the core, so it is modelled as a wrapped string token. -/
inductive Payload where
  | mk (val : String)
deriving DecidableEq, Repr

/-- Modelled from the spec: the per-request Context of context.go (not among
the sources). Fields follow the spec data model: path parameters, query
parameters (a key may repeat, values ordered), the optional decoded payload,
the response state and the monotonic response-written flag, and the
cancellation signal. The HTTP transport handles are not modelled; status,
headers and body are recorded in the Context itself. -/
structure Context where
  params : List (String × String)
  query : List (String × List String)
  payload : Option Payload
  headers : List (String × String)
  status : Option Nat
  respBody : String
  responseWritten : Bool
  cancelled : Bool
deriving DecidableEq, Repr

/-- Modelled from the spec: Context.Respond writes the status and body and
sets the response-written flag as an observable side effect of writing output.
The Go method returns a transport-write error which the callers only log;
the pure model has no transport failure. -/
def Context.Respond (c : Context) (status : Nat) (body : String) : Context :=
  { c with status := some status, respBody := body, responseWritten := true }

/-- Modelled from the spec: c.Header().Set(key, value) — set a response
header, replacing any previous value of the key. -/
def Context.SetHeader (c : Context) (k v : String) : Context :=
  { c with headers := (k, v) :: c.headers.filter (fun p => p.1 != k) }

/-- Look a response header up (observation used by the theorems). -/
def Context.getHeader (c : Context) (k : String) : Option String :=
  (c.headers.find? (fun p => p.1 == k)).map (fun p => p.2)

/-- Handler is the controller handler signature func(*Context) error,
with the Context mutation made explicit. -/
abbrev Handler := Context → Context × Option GoaError

/-- ErrorHandler is the application error handler signature
func(*Context, error). -/
abbrev ErrorHandler := Context → GoaError → Context

/-- Modelled from the spec: the Middleware type of middleware.go (not among
the sources) — a transformation from Handler to Handler. -/
abbrev Middleware := Handler → Handler

/-- DefaultErrorHandler: 400 for BadRequestError instances (with the
Content-Type header set to application/json) and 500 otherwise, the error
message as body in both cases, exactly as in the source. -/
def DefaultErrorHandler (c : Context) (e : GoaError) : Context :=
  let p := if e.isBadRequest then (c.SetHeader "Content-Type" "application/json", 400) else (c, 500)
  p.1.Respond p.2 e.message

/-- TerseErrorHandler: like DefaultErrorHandler but the body stays empty for
internal (non BadRequestError) errors. -/
def TerseErrorHandler (c : Context) (e : GoaError) : Context :=
  let p :=
    if e.isBadRequest then (c.SetHeader "Content-Type" "application/json", 400, e.message)
    else (c, 500, "")
  p.1.Respond p.2.1 p.2.2

/-- The Application aggregate: name, error handler, middleware chain.
The logger and router are not modelled. -/
structure Application where
  name : String
  errorHandler : ErrorHandler
  middleware : List Middleware

/-- New instantiates an application with the given name and
DefaultErrorHandler. -/
def New (name : String) : Application :=
  { name := name, errorHandler := DefaultErrorHandler, middleware := [] }

/-- SetErrorHandler replaces the application error handler; total,
never exits. -/
def Application.SetErrorHandler (app : Application) (h : ErrorHandler) : Application :=
  { app with errorHandler := h }

/-- Modelled from the spec: the argument of Use is an interface{} value that
NewMiddleware converts; the spec says conversion fails only on type
mismatches. The model keeps just the two relevant cases: a value of a
supported middleware shape, or a value of an unsupported type. -/
inductive MiddlewareArg where
  | valid (m : Middleware)
  | invalid

/-- Modelled from the spec: NewMiddleware (middleware.go, not among the
sources) converts the argument of Use into a Middleware and fails exactly on
a type mismatch. -/
def NewMiddleware : MiddlewareArg → Except String Middleware
  | .valid m => .ok m
  | .invalid => .error "unsupported middleware type"

/-- Outcome of Application.Use: either the updated application, or a process
exit through Fatal (which logs critically and calls os.Exit(1)). -/
inductive UseResult where
  | ok (app : Application)
  | fatalExit (msg : String)

/-- Whether a Use outcome terminated the process. -/
def UseResult.exits : UseResult → Bool
  | .ok _ => false
  | .fatalExit _ => true

/-- Use appends a middleware to the chain; on a NewMiddleware error it calls
Fatal, i.e. exits the process. -/
def Application.Use (app : Application) (arg : MiddlewareArg) : UseResult :=
  match NewMiddleware arg with
  | .error _ => .fatalExit "invalid middleware"
  | .ok m => .ok { app with middleware := app.middleware ++ [m] }

/-- Outcome of Application.Run, given the outcome of the listener bind
(an input of the model, supplied by the environment): serving forever, or a
process exit through Fatal on bind failure. -/
inductive RunOutcome where
  | serving
  | fatalExit (msg : String)

/-- Whether a Run outcome terminated the process. -/
def RunOutcome.exits : RunOutcome → Bool
  | .serving => false
  | .fatalExit _ => true

/-- Run starts the server; if http.ListenAndServe fails it calls Fatal. -/
def Application.Run (_app : Application) (bind : Except String Unit) : RunOutcome :=
  match bind with
  | .ok _ => .serving
  | .error _ => .fatalExit "startup failed"

instance : DecidableEq (Except String Payload) := fun a b =>
  match a, b with
  | .ok x, .ok y =>
      if h : x = y then .isTrue (h ▸ rfl) else .isFalse (fun he => h (Except.ok.inj he))
  | .error x, .error y =>
      if h : x = y then .isTrue (h ▸ rfl) else .isFalse (fun he => h (Except.error.inj he))
  | .ok _, .error _ => .isFalse (fun he => Except.noConfusion he)
  | .error _, .ok _ => .isFalse (fun he => Except.noConfusion he)

/-- An incoming request, as the dispatch closure observes it: route
parameters, query values, the declared ContentLength (an int64 in Go, -1
meaning unknown) and the outcome the JSON decoder would produce on the body
(an input of the model, since encoding/json is external). -/
structure Request where
  params : List (String × String)
  query : List (String × List String)
  contentLength : Int
  bodyJSON : Except String Payload
deriving DecidableEq

/-- The body-loading step of the dispatch closure: decode the JSON body when
r.ContentLength > 0, yielding the payload (nil on failure or when not
attempted) and the decode error if any. -/
def decodeStep (r : Request) : Option Payload × Option String :=
  if r.contentLength > 0 then
    match r.bodyJSON with
    | .ok p => (some p, none)
    | .error e => (none, some e)
  else (none, none)

/-- The wrapper NewHTTPRouterHandle builds around the goa handler before the
chain is applied: invoke h, on a non-nil error invoke the application error
handler, and return nil in every case. -/
def errorWrapper (eh : ErrorHandler) (h : Handler) : Handler :=
  fun ctx =>
    match h ctx with
    | (c, some e) => (eh c e, none)
    | (c, none) => (c, none)

/-- The composition loop
for i := range chain \x7b middleware = chain[ml-i-1](middleware) \x7d:
a left fold that applies the last-registered middleware first, so the
first-registered middleware ends up outermost. -/
def composeChain (chain : List Middleware) (terminal : Handler) : Handler :=
  chain.reverse.foldl (fun acc m => m acc) terminal

/-- The body the fallback handler responds with on a JSON decode failure. -/
def invalidJSONBody (errText : String) : String :=
  "\x7b\"kind\":\"invalid request\",\"msg\":\"invalid JSON: " ++ errText ++ "\"\x7d"

/-- The fallback terminal handler composed when payload decoding failed:
respond 400 with the structured invalid-request body, return nil. -/
def fallbackHandler (errText : String) : Handler :=
  fun ctx => (ctx.Respond 400 (invalidJSONBody errText), none)

/-- What the returned httprouter handle captures at build time: the snapshot
chain := app.Middleware taken outside the closure, and the goa handler. The
error handler is NOT captured: the closure reads it through the app pointer
at request time, so it is an argument of dispatch instead. -/
structure HandleClosure where
  chain : List Middleware
  h : Handler

/-- NewHTTPRouterHandle: snapshot the middleware chain and close over the
handler. (In Go the snapshot is a slice header copy; Use only appends, which
never mutates the first len(chain) elements the snapshot sees.) -/
def Application.NewHTTPRouterHandle (app : Application) (h : Handler) : HandleClosure :=
  { chain := app.middleware, h := h }

/-- The Context the dispatch closure builds: extracted parameters and query,
the decoded payload (nil when decoding failed or was skipped), nothing
written yet, cancellation not yet fired. -/
def initialContext (r : Request) : Context :=
  { params := r.params, query := r.query, payload := (decodeStep r).1,
    headers := [], status := none, respBody := "", responseWritten := false,
    cancelled := false }

/-- Handler selection in the dispatch closure: the normal chain around the
error wrapper, unless decoding failed, in which case the fallback terminal is
composed through the same snapshot chain. -/
def selectHandler (hc : HandleClosure) (appNow : Application) (decodeErr : Option String) : Handler :=
  match decodeErr with
  | some e => composeChain hc.chain (fallbackHandler e)
  | none => composeChain hc.chain (errorWrapper appNow.errorHandler hc.h)

/-- Run the selected composed handler on the freshly built Context; the pair
is the mutated Context and the error the chain returned. The Go code invokes
handler(ctx) without looking at that returned error. -/
def runChainFull (hc : HandleClosure) (appNow : Application) (r : Request) :
    Context × Option GoaError :=
  selectHandler hc appNow (decodeStep r).2 (initialContext r)

/-- The tail of the dispatch closure: if no response was written, invoke the
error handler with the "unhandled request" error; then the deferred cancel()
fires on the way out. -/
def finishDispatch (appNow : Application) (c : Context) : Context :=
  let c2 := if c.responseWritten then c else appNow.errorHandler c (GoaError.internal "unhandled request")
  { c2 with cancelled := true }

/-- The whole per-request dispatch closure returned by NewHTTPRouterHandle.
appNow is the application state at request time (its error handler is read
through the pointer); the chain comes from the build-time snapshot in hc. -/
def dispatch (hc : HandleClosure) (appNow : Application) (r : Request) : Context :=
  finishDispatch appNow (runChainFull hc appNow r).1

/-! Theorems. -/

/-- Claim C1: for every request dispatched through the handle, if after the
composed handler chain has executed the response-written flag is still false,
the application error handler is invoked with that Context and a failure
whose message is "unhandled request". -/
theorem unhandled_request_fallback (hc : HandleClosure) (app : Application)
    (r : Request) (h : (runChainFull hc app r).1.responseWritten = false) :
    dispatch hc app r =
      { app.errorHandler (runChainFull hc app r).1 (GoaError.internal "unhandled request")
          with cancelled := true } := by
  simp [dispatch, finishDispatch, h]

def hcW : HandleClosure := { chain := [], h := fun c => (c, none) }

def appW : Application := New "w"

def rW : Request :=
  { params := [], query := [], contentLength := 0, bodyJSON := .ok (Payload.mk "p") }

/-- Witness for C1 at the empty chain and a handler that writes nothing. -/
theorem unhandled_request_fallback_witness :
    (runChainFull hcW appW rW).1.responseWritten = false ∧
    dispatch hcW appW rW =
      { appW.errorHandler (runChainFull hcW appW rW).1 (GoaError.internal "unhandled request")
          with cancelled := true } :=
  ⟨by decide, unhandled_request_fallback hcW appW rW (by decide)⟩

/-- Claim C2: on the normal path the handle built by NewHTTPRouterHandle runs
the chain composed with the first-registered middleware outermost:
List.foldr nests as chain[0] (chain[1] (... chain[n-1] wrapper ...)), with the
error-handling wrapper around the goa handler as terminal, for every chain. -/
theorem middleware_composition_order (app : Application) (h : Handler) :
    selectHandler (app.NewHTTPRouterHandle h) app none
      = app.middleware.foldr (fun m k => m k) (errorWrapper app.errorHandler h) := by
  simp [selectHandler, Application.NewHTTPRouterHandle, composeChain, List.foldl_reverse]

/-- Claim C6: the cancellation signal has fired on the Context that dispatch
returns, whatever the path taken (normal completion, handler failure, decode
failure or the unhandled-request fallback are all instances of r, hc, app). -/
theorem cancellation_always_fires (hc : HandleClosure) (app : Application) (r : Request) :
    (dispatch hc app r).cancelled = true := by
  simp [dispatch, finishDispatch]

/-- Claim C3: when the body fails to decode, the dispatched chain is the same
snapshot chain composed around the fallback handler; the result does not
depend on the business handler at all (it is never invoked), and the fallback
writes 400 with the structured invalid-JSON body. -/
theorem decode_failure_fallback (chain : List Middleware) (h h2 : Handler)
    (app : Application) (r : Request) (e : String)
    (hlen : r.contentLength > 0) (hdec : r.bodyJSON = .error e) :
    runChainFull ⟨chain, h⟩ app r = composeChain chain (fallbackHandler e) (initialContext r)
    ∧ dispatch ⟨chain, h⟩ app r = dispatch ⟨chain, h2⟩ app r
    ∧ ∀ c : Context, (fallbackHandler e c).1 = c.Respond 400 (invalidJSONBody e) := by
  have hd : decodeStep r = (none, some e) := by
    simp [decodeStep, hlen, hdec]
  refine ⟨?_, ?_, fun c => rfl⟩
  · simp [runChainFull, selectHandler, hd]
  · simp [dispatch, runChainFull, selectHandler, initialContext, hd]

def chainW3 : List Middleware := [fun k => k]

def hW3a : Handler := fun c => (c.Respond 200 "ok", none)

def hW3b : Handler := fun c => (c, some (GoaError.internal "other"))

def rW3 : Request :=
  { params := [], query := [], contentLength := 5, bodyJSON := .error "bad" }

/-- Witness for C3 at a one-middleware chain and a body whose decode fails. -/
theorem decode_failure_fallback_witness :
    rW3.contentLength > 0 ∧ rW3.bodyJSON = .error "bad" ∧
    dispatch ⟨chainW3, hW3a⟩ appW rW3 = dispatch ⟨chainW3, hW3b⟩ appW rW3 :=
  ⟨by decide, rfl,
    (decode_failure_fallback chainW3 hW3a hW3b appW rW3 "bad" (by decide) rfl).2.1⟩

def shortCircuitErr : Middleware :=
  fun _ => fun c => (c, some (GoaError.internal "boom"))

def appC4 : Application :=
  { name := "c4", errorHandler := DefaultErrorHandler, middleware := [shortCircuitErr] }

def hNoop : Handler := fun c => (c, none)

def rEmpty : Request :=
  { params := [], query := [], contentLength := 0, bodyJSON := .ok (Payload.mk "p") }

/-- Claim C4 counterexample: a middleware short-circuits with the failure
"boom", so the composed handler returns that non-nil error; yet the error
handler is never invoked with it — the dispatch closure discards the returned
error, and the response the error handler produces on the unhandled-request
path has body "unhandled request", not "boom". -/
theorem chain_error_discarded_cex :
    (runChainFull (appC4.NewHTTPRouterHandle hNoop) appC4 rEmpty).2
        = some (GoaError.internal "boom")
    ∧ (dispatch (appC4.NewHTTPRouterHandle hNoop) appC4 rEmpty).respBody = "unhandled request"
    ∧ (dispatch (appC4.NewHTTPRouterHandle hNoop) appC4 rEmpty).respBody ≠ "boom" := by
  refine ⟨rfl, rfl, by decide⟩

/-- Claim C4 (amended): the error handler is invoked with the Context and the
error when the TERMINAL goa handler returns a failure — the wrapper installed
by NewHTTPRouterHandle does it; but an error returned by the composed chain
itself (for instance by a middleware) is discarded: dispatch depends only on
the Context the chain produced, never on the chain's returned error. -/
theorem terminal_error_reaches_error_handler (eh : ErrorHandler) (h : Handler)
    (c c2 : Context) (e : GoaError) (hh : h c = (c2, some e)) :
    errorWrapper eh h c = (eh c2 e, none)
    ∧ ∀ (hc : HandleClosure) (app : Application) (r : Request),
        dispatch hc app r = finishDispatch app (runChainFull hc app r).1 := by
  exact ⟨by simp [errorWrapper, hh], fun hc app r => rfl⟩

def hFail : Handler := fun c => (c, some (GoaError.internal "x"))

def ctxW : Context := initialContext rEmpty

/-- Witness for amended C4 at a concrete failing terminal handler. -/
theorem terminal_error_reaches_error_handler_witness :
    hFail ctxW = (ctxW, some (GoaError.internal "x"))
    ∧ errorWrapper DefaultErrorHandler hFail ctxW
        = (DefaultErrorHandler ctxW (GoaError.internal "x"), none) :=
  ⟨rfl, (terminal_error_reaches_error_handler DefaultErrorHandler hFail ctxW ctxW
      (GoaError.internal "x") rfl).1⟩

/-- Claim C5: DefaultErrorHandler writes status 400 with Content-Type
application/json and the message as body for a BadRequestError, and status
500 with the message as body otherwise; TerseErrorHandler has the identical
status logic but an empty body in the 500 case. -/
theorem error_handler_policies (c : Context) (msg : String) :
    ((DefaultErrorHandler c (.badRequest msg)).status = some 400
      ∧ (DefaultErrorHandler c (.badRequest msg)).respBody = msg
      ∧ (DefaultErrorHandler c (.badRequest msg)).getHeader "Content-Type"
          = some "application/json")
    ∧ ((DefaultErrorHandler c (.internal msg)).status = some 500
      ∧ (DefaultErrorHandler c (.internal msg)).respBody = msg)
    ∧ ((TerseErrorHandler c (.badRequest msg)).status = some 400
      ∧ (TerseErrorHandler c (.badRequest msg)).respBody = msg
      ∧ (TerseErrorHandler c (.badRequest msg)).getHeader "Content-Type"
          = some "application/json")
    ∧ ((TerseErrorHandler c (.internal msg)).status = some 500
      ∧ (TerseErrorHandler c (.internal msg)).respBody = "") := by
  simp [DefaultErrorHandler, TerseErrorHandler, Context.Respond, Context.SetHeader,
    Context.getHeader, GoaError.isBadRequest, GoaError.message, List.find?]

/-- Claim C7 counterexample: Use is not exit-free — handed a value of an
unsupported middleware type it calls Fatal and terminates the process. -/
theorem use_exits_on_invalid_middleware :
    ((New "app").Use MiddlewareArg.invalid).exits = true := rfl

/-- Claim C7 (amended): the operations that terminate the process are Run on
listener bind failure and Use on a NewMiddleware failure (an invalid
middleware value), and only those: Use with a valid middleware and Run with a
successful bind never exit, and SetErrorHandler and dispatch are total
functions into Application and Context with no exit outcome at all. -/
theorem process_exit_surface (app : Application) (m : Middleware) (e : String) :
    (app.Use (.valid m)).exits = false
    ∧ (app.Use .invalid).exits = true
    ∧ (app.Run (.ok ())).exits = false
    ∧ (app.Run (.error e)).exits = true := by
  exact ⟨rfl, rfl, rfl, rfl⟩

def ctxEmpty : Context :=
  { params := [], query := [], payload := none, headers := [], status := none,
    respBody := "", responseWritten := false, cancelled := false }

/-- Claim C8 counterexample: DefaultErrorHandler on an internal error emits
the non-empty body "boom" on the 500 path, yet no Content-Type header is set. -/
theorem default_500_no_content_type_cex :
    (DefaultErrorHandler ctxEmpty (GoaError.internal "boom")).respBody = "boom"
    ∧ (DefaultErrorHandler ctxEmpty (GoaError.internal "boom")).status = some 500
    ∧ (DefaultErrorHandler ctxEmpty (GoaError.internal "boom")).getHeader "Content-Type"
        = none := by
  refine ⟨rfl, rfl, rfl⟩

/-- Claim C8 (amended): the standard policies set Content-Type
application/json exactly in their 400 (BadRequestError) branch; on the 500
branch — where DefaultErrorHandler still emits the message as a non-empty
body — the headers are left untouched, so no Content-Type is set there. -/
theorem content_type_only_on_bad_request (c : Context) (msg : String) :
    (DefaultErrorHandler c (.badRequest msg)).getHeader "Content-Type"
        = some "application/json"
    ∧ (TerseErrorHandler c (.badRequest msg)).getHeader "Content-Type"
        = some "application/json"
    ∧ (DefaultErrorHandler c (.internal msg)).headers = c.headers
    ∧ (TerseErrorHandler c (.internal msg)).headers = c.headers := by
  simp [DefaultErrorHandler, TerseErrorHandler, Context.Respond, Context.SetHeader,
    Context.getHeader, GoaError.isBadRequest, List.find?]

def rUnknownLen : Request :=
  { params := [], query := [], contentLength := -1, bodyJSON := .error "syntax error" }

/-- Claim C9 counterexample: a request with the unknown-length value -1 whose
body would fail to decode is never decoded at all — the decode step yields no
payload AND no decode error, so dispatch takes the normal path, contrary to
the claim that every non-zero content length has its body decoded. -/
theorem unknown_length_not_decoded_cex :
    decodeStep rUnknownLen = (none, none)
    ∧ (initialContext rUnknownLen).payload = none := by
  refine ⟨rfl, rfl⟩

/-- Claim C9 (amended): the decode step is attempted if and only if the
declared content length is strictly positive: for zero or negative lengths
(the unknown-length value -1 included) nothing is decoded and the payload is
nil; for a positive length the decoder outcome is taken, a success becoming
the payload and a failure the decode error. -/
theorem decode_iff_positive_content_length (r : Request) :
    (r.contentLength ≤ 0 → decodeStep r = (none, none))
    ∧ (r.contentLength > 0 → ∀ p, r.bodyJSON = .ok p → decodeStep r = (some p, none))
    ∧ (r.contentLength > 0 → ∀ e, r.bodyJSON = .error e → decodeStep r = (none, some e)) := by
  refine ⟨fun hle => ?_, fun hgt p hp => ?_, fun hgt e he => ?_⟩
  · simp [decodeStep, Int.not_lt.mpr hle]
  · simp [decodeStep, hgt, hp]
  · simp [decodeStep, hgt, he]

/-- Witness for amended C9 at the unknown-length request. -/
theorem decode_iff_positive_content_length_witness :
    rUnknownLen.contentLength ≤ 0 ∧ decodeStep rUnknownLen = (none, none) :=
  ⟨by decide, (decode_iff_positive_content_length rUnknownLen).1 (by decide)⟩

/-- Claim C10: the handle snapshots the middleware chain when it is built;
a middleware registered with Use afterwards changes nothing about requests
dispatched through the old handle — on the normal and on the decode-failure
path alike, dispatch behaves exactly as if the later Use had not happened. -/
theorem handle_uses_middleware_snapshot (app : Application) (m : Middleware)
    (h : Handler) (r : Request) (app2 : Application)
    (hu : app.Use (.valid m) = .ok app2) :
    dispatch (app.NewHTTPRouterHandle h) app2 r = dispatch (app.NewHTTPRouterHandle h) app r := by
  simp only [Application.Use, NewMiddleware, UseResult.ok.injEq] at hu
  subst hu
  rfl

def midW : Middleware := fun k => fun c => (k c).1.Respond 200 "wrapped" |> (fun c2 => (c2, none))

def appC10 : Application := New "c10"

def appC10b : Application := { appC10 with middleware := appC10.middleware ++ [midW] }

/-- Witness for C10: a later Use does not change what the old handle does. -/
theorem handle_uses_middleware_snapshot_witness :
    appC10.Use (.valid midW) = .ok appC10b
    ∧ dispatch (appC10.NewHTTPRouterHandle hNoop) appC10b rEmpty
        = dispatch (appC10.NewHTTPRouterHandle hNoop) appC10 rEmpty :=
  ⟨rfl, handle_uses_middleware_snapshot appC10 midW hNoop rEmpty appC10b rfl⟩
